import Mathlib

/-!
Verification of the golden-hour / blue-hour time-window module of
`src/components/GoldenHourApp.tsx`.

Times are modelled as `Int` milliseconds, mirroring JavaScript
`Date.getTime()` values. The sunrise/sunset provider (`SunCalc.getTimes`)
is external: its outputs (today's sunrise/sunset, tomorrow's sunrise)
enter the model as parameters.
-/

namespace GoldenHour

/-- The `SunTimes` record stored by the component's state
(interface `SunTimes`, lines 13–20 of the source). -/
structure SunTimes where
  goldenHourStart : Int
  goldenHourEnd : Int
  blueHourStart : Int
  blueHourEnd : Int
  sunrise : Int
  sunset : Int
  deriving DecidableEq, Repr

/-- The eight window boundaries computed in the sun-times `useEffect`
(lines 44–53): morning/evening golden and blue hour starts and ends. -/
structure Windows where
  goldenHourMorningStart : Int
  goldenHourMorningEnd : Int
  goldenHourEveningStart : Int
  goldenHourEveningEnd : Int
  blueHourMorningStart : Int
  blueHourMorningEnd : Int
  blueHourEveningStart : Int
  blueHourEveningEnd : Int
  deriving DecidableEq, Repr

/-- The window derivation of the sun-times `useEffect` (lines 44–53),
from the provider's sunrise and sunset instants. -/
def computeWindows (sunrise sunset : Int) : Windows :=
  { goldenHourMorningStart := sunrise
    goldenHourMorningEnd := sunrise + 30 * 60 * 1000
    goldenHourEveningStart := sunset - 30 * 60 * 1000
    goldenHourEveningEnd := sunset
    blueHourMorningStart := sunrise - 20 * 60 * 1000
    blueHourMorningEnd := sunrise
    blueHourEveningStart := sunset
    blueHourEveningEnd := sunset + 20 * 60 * 1000 }

/-- The `setSunTimes` payload of the sun-times `useEffect` (lines 55–62):
the stored record keeps morning-golden start, evening-golden end,
morning-blue start, evening-blue end, and the raw sunrise/sunset. -/
def computeSunTimes (sunrise sunset : Int) : SunTimes :=
  { goldenHourStart := (computeWindows sunrise sunset).goldenHourMorningStart
    goldenHourEnd := (computeWindows sunrise sunset).goldenHourEveningEnd
    blueHourStart := (computeWindows sunrise sunset).blueHourMorningStart
    blueHourEnd := (computeWindows sunrise sunset).blueHourEveningEnd
    sunrise := sunrise
    sunset := sunset }

/-- `getCurrentLightingCondition` (lines 66–91): classifies `now` into
"golden", "blue" or "day" from the stored `sunTimes` (or "day" when no
sun times exist yet). All comparisons are `<=` / `>=` as in the source. -/
def getCurrentLightingCondition (sunTimes : Option SunTimes) (now : Int) : String :=
  match sunTimes with
  | none => "day"
  | some st =>
    let morningGoldenStart := st.goldenHourStart
    let morningGoldenEnd := st.goldenHourStart + 30 * 60 * 1000
    let eveningGoldenStart := st.sunset - 30 * 60 * 1000
    let eveningGoldenEnd := st.sunset
    let morningBlueStart := st.sunrise - 20 * 60 * 1000
    let morningBlueEnd := st.sunrise
    let eveningBlueStart := st.sunset
    let eveningBlueEnd := st.sunset + 20 * 60 * 1000
    if (morningGoldenStart ≤ now ∧ now ≤ morningGoldenEnd) ∨
        (eveningGoldenStart ≤ now ∧ now ≤ eveningGoldenEnd) then "golden"
    else if (morningBlueStart ≤ now ∧ now ≤ morningBlueEnd) ∨
        (eveningBlueStart ≤ now ∧ now ≤ eveningBlueEnd) then "blue"
    else "day"

/-- One labelled candidate instant of `getNextSpecialTime`. -/
structure SpecialTime where
  type : String
  time : Int
  deriving DecidableEq, Repr

/-- The four labelled candidate instants built by `getNextSpecialTime`
(lines 97–102), in source order. -/
def candidateTimes (st : SunTimes) : List SpecialTime :=
  [ { type := "Blue Hour (Morning)", time := st.sunrise - 20 * 60 * 1000 },
    { type := "Golden Hour (Morning)", time := st.sunrise },
    { type := "Golden Hour (Evening)", time := st.sunset - 30 * 60 * 1000 },
    { type := "Blue Hour (Evening)", time := st.sunset } ]

/-- `getNextSpecialTime` (lines 93–120): `none` without sun times;
otherwise the first listed candidate strictly after `now`, falling back
to tomorrow's sunrise minus 20 minutes (the provider's sunrise for the
next calendar day enters as the parameter `tomorrowSunrise`). -/
def getNextSpecialTime (sunTimes : Option SunTimes) (now : Int)
    (tomorrowSunrise : Int) : Option SpecialTime :=
  match sunTimes with
  | none => none
  | some st =>
    let upcomingTimes := (candidateTimes st).filter (fun t => decide (now < t.time))
    match upcomingTimes with
    | t :: _ => some t
    | [] => some { type := "Blue Hour (Morning)", time := tomorrowSunrise - 20 * 60 * 1000 }

/-- JavaScript `String.prototype.padStart(2, '0')` applied to a decimal
numeral: numbers below 10 get one leading zero, others are unchanged. -/
def padTwo (n : Nat) : String :=
  if n < 10 then "0" ++ toString n else toString n

/-- `formatTimeUntil` (lines 122–132): "00:00:00" for a non-positive
difference, otherwise hours/minutes/seconds by floor division on the
millisecond difference, each zero-padded to two digits. -/
def formatTimeUntil (targetTime now : Int) : String :=
  let diffMs := targetTime - now
  if diffMs ≤ 0 then "00:00:00"
  else
    let d := diffMs.toNat
    let hours := d / (1000 * 60 * 60)
    let minutes := d % (1000 * 60 * 60) / (1000 * 60)
    let seconds := d % (1000 * 60) / 1000
    padTwo hours ++ ":" ++ padTwo minutes ++ ":" ++ padTwo seconds

/-- Membership of instant `t` in the half-open interval `[s, e)`
(the `LightingWindow` reading of a window's start/end boundaries). -/
def windowMem (s e t : Int) : Prop := s ≤ t ∧ t < e

/-- Variant classifier that tests the blue-hour intervals before the
golden-hour ones, with the same closed-interval comparisons; stated from
the spec's tie-break sentence for comparison with the implemented
golden-first order. -/
def getCurrentLightingConditionBlueFirst (sunTimes : Option SunTimes) (now : Int) : String :=
  match sunTimes with
  | none => "day"
  | some st =>
    let morningGoldenStart := st.goldenHourStart
    let morningGoldenEnd := st.goldenHourStart + 30 * 60 * 1000
    let eveningGoldenStart := st.sunset - 30 * 60 * 1000
    let eveningGoldenEnd := st.sunset
    let morningBlueStart := st.sunrise - 20 * 60 * 1000
    let morningBlueEnd := st.sunrise
    let eveningBlueStart := st.sunset
    let eveningBlueEnd := st.sunset + 20 * 60 * 1000
    if (morningBlueStart ≤ now ∧ now ≤ morningBlueEnd) ∨
        (eveningBlueStart ≤ now ∧ now ≤ eveningBlueEnd) then "blue"
    else if (morningGoldenStart ≤ now ∧ now ≤ morningGoldenEnd) ∨
        (eveningGoldenStart ≤ now ∧ now ≤ eveningGoldenEnd) then "golden"
    else "day"

/-- C1: the window derivation places the four windows at the fixed
offsets: morning-blue `[S−20min, S]`, morning-golden `[S, S+30min]`,
evening-golden `[T−30min, T]`, evening-blue `[T, T+20min]`. -/
theorem computeWindows_boundaries (S T : Int) :
    (computeWindows S T).blueHourMorningStart = S - 20 * 60 * 1000 ∧
    (computeWindows S T).blueHourMorningEnd = S ∧
    (computeWindows S T).goldenHourMorningStart = S ∧
    (computeWindows S T).goldenHourMorningEnd = S + 30 * 60 * 1000 ∧
    (computeWindows S T).goldenHourEveningStart = T - 30 * 60 * 1000 ∧
    (computeWindows S T).goldenHourEveningEnd = T ∧
    (computeWindows S T).blueHourEveningStart = T ∧
    (computeWindows S T).blueHourEveningEnd = T + 20 * 60 * 1000 :=
  ⟨rfl, rfl, rfl, rfl, rfl, rfl, rfl, rfl⟩

/-- C2: the classifier returns "golden" exactly on the closed intervals
`[S, S+30min]` and `[T−30min, T]`; "blue" exactly on `[S−20min, S]` and
`[T, T+20min]` when not golden; and "day" exactly otherwise. -/
theorem getCurrentLightingCondition_characterization (S T now : Int) :
    (getCurrentLightingCondition (some (computeSunTimes S T)) now = "golden" ↔
      ((S ≤ now ∧ now ≤ S + 30 * 60 * 1000) ∨
        (T - 30 * 60 * 1000 ≤ now ∧ now ≤ T))) ∧
    (getCurrentLightingCondition (some (computeSunTimes S T)) now = "blue" ↔
      (((S - 20 * 60 * 1000 ≤ now ∧ now ≤ S) ∨
          (T ≤ now ∧ now ≤ T + 20 * 60 * 1000)) ∧
        ¬((S ≤ now ∧ now ≤ S + 30 * 60 * 1000) ∨
          (T - 30 * 60 * 1000 ≤ now ∧ now ≤ T)))) ∧
    (getCurrentLightingCondition (some (computeSunTimes S T)) now = "day" ↔
      (¬((S ≤ now ∧ now ≤ S + 30 * 60 * 1000) ∨
          (T - 30 * 60 * 1000 ≤ now ∧ now ≤ T)) ∧
        ¬((S - 20 * 60 * 1000 ≤ now ∧ now ≤ S) ∨
          (T ≤ now ∧ now ≤ T + 20 * 60 * 1000)))) := by
  have hgb : ("golden" : String) ≠ "blue" := by decide
  have hgd : ("golden" : String) ≠ "day" := by decide
  have hbd : ("blue" : String) ≠ "day" := by decide
  have hbg : ("blue" : String) ≠ "golden" := by decide
  have hdg : ("day" : String) ≠ "golden" := by decide
  have hdb : ("day" : String) ≠ "blue" := by decide
  simp only [getCurrentLightingCondition, computeSunTimes, computeWindows]
  split_ifs with hA hB <;> simp_all

/-- C8: the window derivation is deterministic and idempotent: equal
sunrise/sunset inputs yield identical derived windows and identical
stored sun-times records. -/
theorem computeWindows_deterministic (S₁ T₁ S₂ T₂ : Int)
    (hS : S₁ = S₂) (hT : T₁ = T₂) :
    computeWindows S₁ T₁ = computeWindows S₂ T₂ ∧
    computeSunTimes S₁ T₁ = computeSunTimes S₂ T₂ := by
  subst hS hT
  exact ⟨rfl, rfl⟩

/-- Witness for C8 at sunrise 0, sunset 86400000. -/
theorem computeWindows_deterministic_witness :
    (0 : Int) = 0 ∧ (86400000 : Int) = 86400000 ∧
    (computeWindows 0 86400000 = computeWindows 0 86400000 ∧
      computeSunTimes 0 86400000 = computeSunTimes 0 86400000) :=
  ⟨rfl, rfl, computeWindows_deterministic 0 86400000 0 86400000 rfl rfl⟩

/-- C9: a strictly positive difference below one second still prints as
"00:00:00", indistinguishable from the expired sentinel. -/
theorem formatTimeUntil_subsecond (target now : Int) (h1 : 0 < target - now)
    (h2 : target - now < 1000) :
    formatTimeUntil target now = "00:00:00" := by
  simp only [formatTimeUntil]
  rw [if_neg (by omega)]
  have e1 : (target - now).toNat / (1000 * 60 * 60) = 0 := Nat.div_eq_of_lt (by omega)
  have e2 : (target - now).toNat % (1000 * 60 * 60) / (1000 * 60) = 0 := by
    rw [Nat.mod_eq_of_lt (by omega)]
    exact Nat.div_eq_of_lt (by omega)
  have e3 : (target - now).toNat % (1000 * 60) / 1000 = 0 := by
    rw [Nat.mod_eq_of_lt (by omega)]
    exact Nat.div_eq_of_lt (by omega)
  rw [e1, e2, e3]
  rfl

/-- Witness for C9 at target 500 ms, now 0. -/
theorem formatTimeUntil_subsecond_witness :
    (0 : Int) < 500 - 0 ∧ (500 : Int) - 0 < 1000 ∧
    formatTimeUntil 500 0 = "00:00:00" :=
  ⟨by decide, by decide, formatTimeUntil_subsecond 500 0 (by decide) (by decide)⟩

/-- C5: the countdown formatter returns "00:00:00" whenever the target
is at or before `now`, and otherwise splits the remaining whole seconds
into unbounded hours, minutes, and seconds by integer truncation, each
zero-padded to two digits; in particular 3661 remaining seconds print as
"01:01:01". -/
theorem formatTimeUntil_spec (target now : Int) :
    (formatTimeUntil target now =
      if target ≤ now then "00:00:00"
      else
        padTwo ((target - now).toNat / 1000 / 3600) ++ ":" ++
        padTwo ((target - now).toNat / 1000 / 60 % 60) ++ ":" ++
        padTwo ((target - now).toNat / 1000 % 60)) ∧
    formatTimeUntil (now + 3661 * 1000) now = "01:01:01" := by
  constructor
  · simp only [formatTimeUntil]
    by_cases h : target ≤ now
    · rw [if_pos (by omega), if_pos h]
    · rw [if_neg (by omega), if_neg h]
      have e1 : (target - now).toNat / (1000 * 60 * 60) =
          (target - now).toNat / 1000 / 3600 := by omega
      have e2 : (target - now).toNat % (1000 * 60 * 60) / (1000 * 60) =
          (target - now).toNat / 1000 / 60 % 60 := by omega
      have e3 : (target - now).toNat % (1000 * 60) / 1000 =
          (target - now).toNat / 1000 % 60 := by omega
      rw [e1, e2, e3]
  · simp only [formatTimeUntil]
    rw [if_neg (by omega)]
    have e : now + 3661 * 1000 - now = (3661000 : Int) := by omega
    rw [e]
    rfl

/-- C4: given next-day data whose morning-blue start lies after `now`
(as real provider data does), the next-event finder returns an event
strictly after `now`, in both the same-day and the roll-over branch. -/
theorem getNextSpecialTime_future (S T now tomorrowSunrise : Int)
    (hvalid : now < tomorrowSunrise - 20 * 60 * 1000) :
    ∃ e, getNextSpecialTime (some (computeSunTimes S T)) now tomorrowSunrise = some e ∧
      now < e.time := by
  simp only [getNextSpecialTime, candidateTimes, computeSunTimes, computeWindows]
  by_cases h1 : now < S - 1200000 <;>
    by_cases h2 : now < S <;>
      by_cases h3 : now < T - 1800000 <;>
        by_cases h4 : now < T <;>
          simp [List.filter_cons, List.filter_nil, h1, h2, h3, h4] <;>
            omega

/-- Witness for C4: all of today's candidates passed, roll-over event. -/
theorem getNextSpecialTime_future_witness :
    (50000000 : Int) < 108000000 - 20 * 60 * 1000 ∧
    ∃ e, getNextSpecialTime (some (computeSunTimes 0 43200000)) 50000000 108000000 =
        some e ∧ (50000000 : Int) < e.time :=
  ⟨by decide, getNextSpecialTime_future 0 43200000 50000000 108000000 (by decide)⟩

/-- C3 counterexample: with sunrise 0 and sunset 5 minutes later, the
candidate list built by the next-event finder is not in chronological
order — the evening-golden candidate precedes the morning candidates in
time but follows them in the list. -/
theorem candidateTimes_not_chronological :
    ¬ List.Sorted (· ≤ ·)
      ((candidateTimes (computeSunTimes 0 300000)).map SpecialTime.time) := by
  decide

/-- C3 amended: when sunset is at least 30 minutes after sunrise, the
candidate list morning-blue-start, morning-golden-start,
evening-golden-start, evening-blue-start is in chronological order, and
the next-event finder returns the first candidate strictly after `now`
— one no later than any other candidate strictly after `now` — or, when
every candidate is at or before `now`, the next day's sunrise minus 20
minutes labelled "Blue Hour (Morning)". -/
theorem getNextSpecialTime_first_upcoming (S T now tomorrowSunrise : Int)
    (h : S + 30 * 60 * 1000 ≤ T) :
    List.Sorted (· ≤ ·)
      ((candidateTimes (computeSunTimes S T)).map SpecialTime.time) ∧
    ∃ e, getNextSpecialTime (some (computeSunTimes S T)) now tomorrowSunrise = some e ∧
      ((e ∈ candidateTimes (computeSunTimes S T) ∧ now < e.time ∧
          ∀ c ∈ candidateTimes (computeSunTimes S T), now < c.time → e.time ≤ c.time) ∨
        ((∀ c ∈ candidateTimes (computeSunTimes S T), c.time ≤ now) ∧
          e = { type := "Blue Hour (Morning)",
                time := tomorrowSunrise - 20 * 60 * 1000 })) := by
  constructor
  · simp [candidateTimes, computeSunTimes, computeWindows, List.sorted_cons]
    omega
  · simp only [getNextSpecialTime, candidateTimes, computeSunTimes, computeWindows]
    by_cases h1 : now < S - 1200000 <;>
      by_cases h2 : now < S <;>
        by_cases h3 : now < T - 1800000 <;>
          by_cases h4 : now < T <;>
            simp [List.filter_cons, List.filter_nil, h1, h2, h3, h4,
              candidateTimes, computeSunTimes, computeWindows] <;>
              omega

/-- Witness for C3 amended at sunrise 0, sunset 7200000, now 0,
tomorrow's sunrise 90000000. -/
theorem getNextSpecialTime_first_upcoming_witness :
    (0 : Int) + 30 * 60 * 1000 ≤ 7200000 ∧
    (List.Sorted (· ≤ ·)
        ((candidateTimes (computeSunTimes 0 7200000)).map SpecialTime.time) ∧
      ∃ e, getNextSpecialTime (some (computeSunTimes 0 7200000)) 0 90000000 = some e ∧
        ((e ∈ candidateTimes (computeSunTimes 0 7200000) ∧ (0 : Int) < e.time ∧
            ∀ c ∈ candidateTimes (computeSunTimes 0 7200000),
              (0 : Int) < c.time → e.time ≤ c.time) ∨
          ((∀ c ∈ candidateTimes (computeSunTimes 0 7200000), c.time ≤ (0 : Int)) ∧
            e = { type := "Blue Hour (Morning)",
                  time := (90000000 : Int) - 20 * 60 * 1000 }))) :=
  ⟨by decide, getNextSpecialTime_first_upcoming 0 7200000 0 90000000 (by decide)⟩

/-- C6 counterexample: sunrise 0 and sunset 55 minutes later have a gap
above 50 minutes, yet the instant 1600000 ms lies in both the
morning-golden and the evening-golden half-open windows. -/
theorem windows_overlap_at_55min :
    (3300000 : Int) - 0 > 50 * 60 * 1000 ∧
    windowMem (computeWindows 0 3300000).goldenHourMorningStart
      (computeWindows 0 3300000).goldenHourMorningEnd 1600000 ∧
    windowMem (computeWindows 0 3300000).goldenHourEveningStart
      (computeWindows 0 3300000).goldenHourEveningEnd 1600000 := by
  refine ⟨by decide, ?_, ?_⟩ <;>
    · unfold windowMem computeWindows
      exact ⟨by decide, by decide⟩

/-- C6 amended: morning-blue ends where morning-golden starts (at
sunrise) and evening-golden ends where evening-blue starts (at sunset);
and whenever sunset is at least 60 minutes after sunrise, the four
half-open windows are pairwise non-overlapping. -/
theorem windows_boundaries_disjoint (S T : Int) (h : S + 60 * 60 * 1000 ≤ T) :
    (computeWindows S T).blueHourMorningEnd = (computeWindows S T).goldenHourMorningStart ∧
    (computeWindows S T).blueHourMorningEnd = S ∧
    (computeWindows S T).goldenHourEveningEnd = (computeWindows S T).blueHourEveningStart ∧
    (computeWindows S T).goldenHourEveningEnd = T ∧
    (∀ t, ¬(windowMem (computeWindows S T).blueHourMorningStart
        (computeWindows S T).blueHourMorningEnd t ∧
      windowMem (computeWindows S T).goldenHourMorningStart
        (computeWindows S T).goldenHourMorningEnd t)) ∧
    (∀ t, ¬(windowMem (computeWindows S T).blueHourMorningStart
        (computeWindows S T).blueHourMorningEnd t ∧
      windowMem (computeWindows S T).goldenHourEveningStart
        (computeWindows S T).goldenHourEveningEnd t)) ∧
    (∀ t, ¬(windowMem (computeWindows S T).blueHourMorningStart
        (computeWindows S T).blueHourMorningEnd t ∧
      windowMem (computeWindows S T).blueHourEveningStart
        (computeWindows S T).blueHourEveningEnd t)) ∧
    (∀ t, ¬(windowMem (computeWindows S T).goldenHourMorningStart
        (computeWindows S T).goldenHourMorningEnd t ∧
      windowMem (computeWindows S T).goldenHourEveningStart
        (computeWindows S T).goldenHourEveningEnd t)) ∧
    (∀ t, ¬(windowMem (computeWindows S T).goldenHourMorningStart
        (computeWindows S T).goldenHourMorningEnd t ∧
      windowMem (computeWindows S T).blueHourEveningStart
        (computeWindows S T).blueHourEveningEnd t)) ∧
    (∀ t, ¬(windowMem (computeWindows S T).goldenHourEveningStart
        (computeWindows S T).goldenHourEveningEnd t ∧
      windowMem (computeWindows S T).blueHourEveningStart
        (computeWindows S T).blueHourEveningEnd t)) := by
  refine ⟨rfl, rfl, rfl, rfl, ?_, ?_, ?_, ?_, ?_, ?_⟩ <;>
    · intro t ht
      simp only [windowMem, computeWindows] at ht
      omega

/-- Witness for C6 amended at sunrise 0, sunset 7200000. -/
theorem windows_boundaries_disjoint_witness :
    (0 : Int) + 60 * 60 * 1000 ≤ 7200000 ∧
    ((computeWindows 0 7200000).blueHourMorningEnd =
        (computeWindows 0 7200000).goldenHourMorningStart ∧
      (computeWindows 0 7200000).blueHourMorningEnd = 0 ∧
      (computeWindows 0 7200000).goldenHourEveningEnd =
        (computeWindows 0 7200000).blueHourEveningStart ∧
      (computeWindows 0 7200000).goldenHourEveningEnd = 7200000 ∧
      (∀ t, ¬(windowMem (computeWindows 0 7200000).blueHourMorningStart
          (computeWindows 0 7200000).blueHourMorningEnd t ∧
        windowMem (computeWindows 0 7200000).goldenHourMorningStart
          (computeWindows 0 7200000).goldenHourMorningEnd t)) ∧
      (∀ t, ¬(windowMem (computeWindows 0 7200000).blueHourMorningStart
          (computeWindows 0 7200000).blueHourMorningEnd t ∧
        windowMem (computeWindows 0 7200000).goldenHourEveningStart
          (computeWindows 0 7200000).goldenHourEveningEnd t)) ∧
      (∀ t, ¬(windowMem (computeWindows 0 7200000).blueHourMorningStart
          (computeWindows 0 7200000).blueHourMorningEnd t ∧
        windowMem (computeWindows 0 7200000).blueHourEveningStart
          (computeWindows 0 7200000).blueHourEveningEnd t)) ∧
      (∀ t, ¬(windowMem (computeWindows 0 7200000).goldenHourMorningStart
          (computeWindows 0 7200000).goldenHourMorningEnd t ∧
        windowMem (computeWindows 0 7200000).goldenHourEveningStart
          (computeWindows 0 7200000).goldenHourEveningEnd t)) ∧
      (∀ t, ¬(windowMem (computeWindows 0 7200000).goldenHourMorningStart
          (computeWindows 0 7200000).goldenHourMorningEnd t ∧
        windowMem (computeWindows 0 7200000).blueHourEveningStart
          (computeWindows 0 7200000).blueHourEveningEnd t)) ∧
      (∀ t, ¬(windowMem (computeWindows 0 7200000).goldenHourEveningStart
          (computeWindows 0 7200000).goldenHourEveningEnd t ∧
        windowMem (computeWindows 0 7200000).blueHourEveningStart
          (computeWindows 0 7200000).blueHourEveningEnd t))) :=
  ⟨by decide, windows_boundaries_disjoint 0 7200000 (by decide)⟩

/-- C7 counterexample: at `now` equal to sunrise (gap 120 minutes, well
above 50), the implemented golden-first classifier answers "golden"
while the blue-first variant answers "blue" — the check order does
change the result at the shared boundary. -/
theorem blueFirst_differs_at_sunrise :
    (7200000 : Int) - 0 > 50 * 60 * 1000 ∧
    getCurrentLightingCondition (some (computeSunTimes 0 7200000)) 0 = "golden" ∧
    getCurrentLightingConditionBlueFirst (some (computeSunTimes 0 7200000)) 0 = "blue" :=
  ⟨by decide, by decide, by decide⟩

/-- C7 amended: with sunset more than 50 minutes after sunrise, the
blue-first variant agrees with the implemented golden-first classifier
at every instant except the shared boundaries `now = S` and `now = T`. -/
theorem blueFirst_agrees_off_boundary (S T now : Int)
    (hgap : S + 50 * 60 * 1000 < T) (hS : now ≠ S) (hT : now ≠ T) :
    getCurrentLightingConditionBlueFirst (some (computeSunTimes S T)) now =
      getCurrentLightingCondition (some (computeSunTimes S T)) now := by
  simp only [getCurrentLightingCondition, getCurrentLightingConditionBlueFirst,
    computeSunTimes, computeWindows]
  split_ifs <;> first | rfl | (exfalso; omega)

/-- Witness for C7 amended at sunrise 0, sunset 7200000, now 12345. -/
theorem blueFirst_agrees_off_boundary_witness :
    (0 : Int) + 50 * 60 * 1000 < 7200000 ∧ (12345 : Int) ≠ 0 ∧
    (12345 : Int) ≠ 7200000 ∧
    getCurrentLightingConditionBlueFirst (some (computeSunTimes 0 7200000)) 12345 =
      getCurrentLightingCondition (some (computeSunTimes 0 7200000)) 12345 :=
  ⟨by decide, by decide, by decide,
    blueFirst_agrees_off_boundary 0 7200000 12345 (by decide) (by decide) (by decide)⟩

/-- C10: before any sun times exist, the classifier returns "day" and
the next-event finder returns `none`, for every `now`. -/
theorem no_sunTimes_defaults (now tomorrowSunrise : Int) :
    getCurrentLightingCondition none now = "day" ∧
    getNextSpecialTime none now tomorrowSunrise = none :=
  ⟨rfl, rfl⟩

end GoldenHour
